import Mathlib

/-!
Shallow embedding of the per-object monitor subsystem in
`runtime/monitor.cc` (the ART thin/fat lock implementation).

Pure value types (`LockWord`, `Monitor` fields, `MonitorInfo`) are
translated directly.  The stateful operations (`MonitorEnter`,
`MonitorExit`, `Monitor::Wait`, `Monitor::Notify`, ...) are embedded as
functions on an explicit object state consisting of the lock word and
the (at most one, since inflation is one-way and permanent) fat monitor
of the object.  The embedding is single-threaded: a CAS by the only
running thread succeeds, and a path on which the thread would block
forever (spinning on a foreign thin lock, parking on a contended fat
monitor) is rendered as `Option.none`.  Paths that park the thread with
the intention of being woken later (the wait-set park in `Monitor::Wait`)
are rendered by an explicit `parked` outcome carrying the effective wait
reason, so that everything up to the parking point is still checked.
-/

namespace Art

/-- Thread ids, as in the runtime: small integers, zero reserved. -/
abbrev ThreadId := Nat

/-- Addresses of heap-allocated monitors (the payload of a fat lock word). -/
abbrev MonitorId := Nat

/-- Modelled from the spec: `ThreadList::kInvalidThreadId` lives in
`thread_list.h`, which is not part of the sources; the spec reserves the
thread id zero as the "no thread" value. -/
def kInvalidThreadId : ThreadId := 0

/-- Modelled from the spec: `LockWord::kThinLockMaxCount` lives in
`lock_word.h`, which is not part of the sources; the spec requires the
recursion count to fit a fixed bit-width of at least about 12 bits.  The
claims are insensitive to the exact value, only to it being a fixed cap. -/
def kThinLockMaxCount : Nat := 4095

/-- The address handed to a freshly installed monitor.  The embedding is
single-object and inflation happens at most once, so a fixed nonzero
address models the allocation. -/
def kInflatedMonitorId : MonitorId := 1

/-- `LockWord` (`lock_word.h`): the three states an object lock word can
carry, as described at the top of `monitor.cc` and used by every switch
in it. -/
inductive LockWord where
  | Unlocked : LockWord
  | ThinLocked (owner : ThreadId) (count : Nat) : LockWord
  | FatLocked (mon : MonitorId) : LockWord
deriving DecidableEq, Repr

/-- The mutable fields of `Monitor` that the claims are about:
`owner_`, `lock_count_`, `wait_set_` (flattened from the intrusive
`wait_next_` chain into the list of thread ids in chain order), and the
diagnostic pair `locking_method_` / `locking_dex_pc_` (the method is
abstracted to a numeric token, `none` for the null method). -/
structure Monitor where
  owner : Option ThreadId
  lock_count : Nat
  wait_set : List ThreadId
  locking_method : Option Nat
  locking_dex_pc : Nat
deriving DecidableEq, Repr

/-- The state of one object: its lock word plus its fat monitor.  The
monitor field is meaningful only while the lock word is `FatLocked`;
inflation writes both. -/
structure ObjState where
  lockWord : LockWord
  monitor : Monitor
deriving DecidableEq, Repr

/-- The exception kinds this subsystem raises
(`ThrowIllegalMonitorStateExceptionF`, the `IllegalArgumentException`
throw in `Monitor::Wait`, `InterruptedException`). -/
inductive ExceptionKind where
  | IllegalMonitorState
  | IllegalArgument
  | Interrupted
deriving DecidableEq, Repr

/-- The thread states `Monitor::Wait` accepts as `why`:
`kWaiting`, `kTimedWaiting`, `kSleeping`. -/
inductive WhyState where
  | Waiting
  | TimedWaiting
  | Sleeping
deriving DecidableEq, Repr

/-- Ambient data the code reads from the runtime and the current thread:
the lock profiling threshold (`lock_profiling_threshold_`) and the
current method / dex pc of a thread (`GetCurrentMethod`), abstracted to
tokens. -/
structure Ctx where
  profilingThreshold : Nat
  curMethod : Option Nat
  curDexPc : Nat
deriving DecidableEq, Repr

/-- Result of `Monitor::Unlock`: the boolean return value, the updated
monitor, and the exception raised on the failure path. -/
structure UnlockResult where
  ret : Bool
  mon : Monitor
  thrown : Option ExceptionKind
deriving DecidableEq, Repr

/-- `Monitor::Unlock` (monitor.cc:312).  If the caller owns the monitor:
at recursion count zero clear the owner and the diagnostic fields (and
signal one contender, invisible in a single-threaded state); otherwise
decrement the count.  A non-owner gets `FailedUnlock`, which throws
`IllegalMonitorStateException`, and `false`. -/
def Monitor.Unlock (self : ThreadId) (m : Monitor) : UnlockResult :=
  if m.owner = some self then
    if m.lock_count = 0 then
      ⟨true, { m with owner := none, locking_method := none, locking_dex_pc := 0 }, none⟩
    else
      ⟨true, { m with lock_count := m.lock_count - 1 }, none⟩
  else
    ⟨false, m, some .IllegalMonitorState⟩

/-- `Monitor::Lock` (monitor.cc:175), single-threaded step.  Unowned:
take ownership (recording the locking method when profiling is on).
Owned by self: bump the recursion count.  Owned by another thread: the
caller parks on the contender condition variable and cannot make
progress alone, rendered as `none`. -/
def Monitor.LockStep (ctx : Ctx) (self : ThreadId) (m : Monitor) : Option Monitor :=
  if m.owner = none then
    some { m with
            owner := some self,
            locking_method := if ctx.profilingThreshold ≠ 0 then ctx.curMethod else m.locking_method,
            locking_dex_pc := if ctx.profilingThreshold ≠ 0 then ctx.curDexPc else m.locking_dex_pc }
  else if m.owner = some self then
    some { m with lock_count := m.lock_count + 1 }
  else
    none

/-- The loop body of `Monitor::Notify` (monitor.cc:507).  Pops threads
off the head of the wait set; the first one whose `wait_monitor_` is
non-null is signalled and iteration stops; the others have raced out and
are skipped.  `wm` maps each thread to its `wait_monitor_` field.
Returns the remaining wait set and the signalled thread, if any. -/
def notifyLoop (wm : ThreadId → Option MonitorId) : List ThreadId → List ThreadId × Option ThreadId
  | [] => ([], none)
  | t :: rest => if (wm t).isSome then (rest, some t) else notifyLoop wm rest

/-- Result of `Monitor::Notify`: updated monitor, which thread (if any)
had its personal condition variable signalled, and the exception on the
non-owner path. -/
structure NotifyResult where
  mon : Monitor
  signalled : Option ThreadId
  thrown : Option ExceptionKind
deriving DecidableEq, Repr

/-- `Monitor::Notify` (monitor.cc:498).  A non-owner gets
`IllegalMonitorStateException`; otherwise run the wait-set scan. -/
def Monitor.Notify (wm : ThreadId → Option MonitorId) (self : ThreadId)
    (m : Monitor) : NotifyResult :=
  if m.owner = some self then
    let r := notifyLoop wm m.wait_set
    ⟨{ m with wait_set := r.1 }, r.2, none⟩
  else
    ⟨m, none, some .IllegalMonitorState⟩

/-- Result of `Monitor::NotifyAll`: updated monitor, the threads whose
`Thread::Notify` was invoked in order, and the exception on the
non-owner path. -/
structure NotifyAllResult where
  mon : Monitor
  signalled : List ThreadId
  thrown : Option ExceptionKind
deriving DecidableEq, Repr

/-- `Monitor::NotifyAll` (monitor.cc:521).  A non-owner gets
`IllegalMonitorStateException`; otherwise the wait set is drained and
every member is notified. -/
def Monitor.NotifyAll (self : ThreadId) (m : Monitor) : NotifyAllResult :=
  if m.owner = some self then
    ⟨{ m with wait_set := [] }, m.wait_set, none⟩
  else
    ⟨m, [], some .IllegalMonitorState⟩

/-- `Monitor::AppendToWaitSet` (monitor.cc:127): push_back on the
`wait_next_` chain. -/
def Monitor.AppendToWaitSet (thread : ThreadId) (m : Monitor) : Monitor :=
  { m with wait_set := m.wait_set ++ [thread] }

/-- Result of the member `Monitor::Wait` up to its parking point: the
monitor as left behind, the exception raised on a precondition failure,
and, when the thread parks on its personal condition variable, the
effective wait reason (after the zero-timeout coercion). -/
structure WaitResult where
  mon : Monitor
  thrown : Option ExceptionKind
  parked : Option WhyState
deriving DecidableEq, Repr

/-- The member `Monitor::Wait` (monitor.cc:360) up to the park on
`wait_cond_`.  Checks ownership (`IllegalMonitorStateException`),
coerces a zero-length timed wait to an untimed one, range-checks the
timeout (`IllegalArgumentException`), then appends self to the wait set
and fully releases the monitor (count to zero, owner to null, diagnostic
fields cleared) before parking. -/
def Monitor.WaitMember (self : ThreadId) (ms : Int) (ns : Int) (why : WhyState)
    (m : Monitor) : WaitResult :=
  if m.owner ≠ some self then
    ⟨m, some .IllegalMonitorState, none⟩
  else
    let why := if why = .TimedWaiting ∧ ms = 0 ∧ ns = 0 then .Waiting else why
    if ms < 0 ∨ ns < 0 ∨ ns > 999999 then
      ⟨m, some .IllegalArgument, none⟩
    else
      ⟨{ (m.AppendToWaitSet self) with
          lock_count := 0, owner := none, locking_method := none, locking_dex_pc := 0 },
       none, some why⟩

/-- `Monitor::Inflate` plus `Monitor::Install` (monitor.cc:543, 96),
single-threaded: the constructor binds the designated owner with count
zero, `Install` copies the thin recursion count into `lock_count_`,
records the locking method when profiling is on, and the CAS from the
thin word to the fat word succeeds.  On a lock word that is not thin,
`Install` fails and the fresh monitor is discarded (state unchanged). -/
def Inflate (ctx : Ctx) (owner : ThreadId) (s : ObjState) : ObjState :=
  match s.lockWord with
  | .ThinLocked _ n =>
      { lockWord := .FatLocked kInflatedMonitorId,
        monitor := { owner := some owner,
                     lock_count := n,
                     wait_set := [],
                     locking_method := if ctx.profilingThreshold ≠ 0 then ctx.curMethod else none,
                     locking_dex_pc := if ctx.profilingThreshold ≠ 0 then ctx.curDexPc else 0 } }
  | _ => s

/-- `Monitor::MonitorEnter` (monitor.cc:558), single-threaded, the retry
loop unrolled (after an overflow inflation the re-read word is fat and
the fat path runs).  Unlocked: CAS in `ThinLocked(self, 0)`.  Thin and
owned by self: store count + 1 while it stays within
`kThinLockMaxCount`, else inflate with self as owner and retry.  Thin
and owned by another thread: spin / suspend-and-inflate, which never
completes with no other thread running, rendered `none`.  Fat: delegate
to `Monitor::Lock`. -/
def MonitorEnter (ctx : Ctx) (self : ThreadId) (s : ObjState) : Option ObjState :=
  match s.lockWord with
  | .Unlocked => some { s with lockWord := .ThinLocked self 0 }
  | .ThinLocked owner n =>
      if owner = self then
        if n + 1 ≤ kThinLockMaxCount then
          some { s with lockWord := .ThinLocked self (n + 1) }
        else
          let s1 := Inflate ctx self s
          (Monitor.LockStep ctx self s1.monitor).map (fun m => { s1 with monitor := m })
      else
        none
  | .FatLocked _ =>
      (Monitor.LockStep ctx self s.monitor).map (fun m => { s with monitor := m })

/-- Result of `Monitor::MonitorExit`: boolean return, updated object
state, exception on the failure paths. -/
structure ExitResult where
  ret : Bool
  s : ObjState
  thrown : Option ExceptionKind
deriving DecidableEq, Repr

/-- `Monitor::MonitorExit` (monitor.cc:625).  Unlocked: `FailedUnlock`
throws `IllegalMonitorStateException`, returns false.  Thin, foreign
owner: same.  Thin, own lock: store count − 1, or the unlocked word when
the count is zero; return true.  Fat: delegate to `Monitor::Unlock`. -/
def MonitorExit (self : ThreadId) (s : ObjState) : ExitResult :=
  match s.lockWord with
  | .Unlocked => ⟨false, s, some .IllegalMonitorState⟩
  | .ThinLocked owner n =>
      if owner ≠ self then
        ⟨false, s, some .IllegalMonitorState⟩
      else if n ≠ 0 then
        ⟨true, { s with lockWord := .ThinLocked self (n - 1) }, none⟩
      else
        ⟨true, { s with lockWord := .Unlocked }, none⟩
  | .FatLocked _ =>
      let r := Monitor.Unlock self s.monitor
      ⟨r.ret, { s with monitor := r.mon }, r.thrown⟩

/-- Result of the static `Monitor::Wait` on an object. -/
structure ObjWaitResult where
  s : ObjState
  thrown : Option ExceptionKind
  parked : Option WhyState
deriving DecidableEq, Repr

/-- The static `Monitor::Wait` (monitor.cc:668).  Unlocked or thin with
a foreign owner: `IllegalMonitorStateException`.  Thin and owned by
self: inflate to get a monitor, then run the member wait.  Fat: run the
member wait. -/
def MonitorWaitObject (ctx : Ctx) (self : ThreadId) (ms : Int) (ns : Int)
    (why : WhyState) (s : ObjState) : ObjWaitResult :=
  match s.lockWord with
  | .Unlocked => ⟨s, some .IllegalMonitorState, none⟩
  | .ThinLocked owner _ =>
      if owner ≠ self then
        ⟨s, some .IllegalMonitorState, none⟩
      else
        let s1 := Inflate ctx self s
        let r := Monitor.WaitMember self ms ns why s1.monitor
        ⟨{ s1 with monitor := r.mon }, r.thrown, r.parked⟩
  | .FatLocked _ =>
      let r := Monitor.WaitMember self ms ns why s.monitor
      ⟨{ s with monitor := r.mon }, r.thrown, r.parked⟩

/-- `Monitor::InflateAndNotify` (monitor.cc:698), the object-level entry
point for notify and notifyAll.  Unlocked or thin with a foreign owner:
`IllegalMonitorStateException`.  Thin owned by self: there is no monitor
and therefore no waiters — success, nothing inflated, nothing touched.
Fat: delegate to `Notify` or `NotifyAll`. -/
def InflateAndNotify (wm : ThreadId → Option MonitorId) (self : ThreadId)
    (notify_all : Bool) (s : ObjState) : ObjState × Option ExceptionKind :=
  match s.lockWord with
  | .Unlocked => (s, some .IllegalMonitorState)
  | .ThinLocked owner _ =>
      if owner ≠ self then
        (s, some .IllegalMonitorState)
      else
        (s, none)
  | .FatLocked _ =>
      if notify_all then
        let r := Monitor.NotifyAll self s.monitor
        ({ s with monitor := r.mon }, r.thrown)
      else
        let r := Monitor.Notify wm self s.monitor
        ({ s with monitor := r.mon }, r.thrown)

/-- `Monitor::GetOwnerThreadId` (monitor.cc:914): the owner thread id,
or the invalid id when the monitor is unowned. -/
def Monitor.GetOwnerThreadId (m : Monitor) : ThreadId :=
  match m.owner with
  | some o => o
  | none => kInvalidThreadId

/-- `Monitor::GetLockOwnerThreadId` (monitor.cc:730): invalid id for an
unlocked word, the thin owner for a thin word, the monitor owner query
for a fat word. -/
def GetLockOwnerThreadId (s : ObjState) : ThreadId :=
  match s.lockWord with
  | .Unlocked => kInvalidThreadId
  | .ThinLocked o _ => o
  | .FatLocked _ => s.monitor.GetOwnerThreadId

/-- `MonitorInfo` (monitor.h / monitor.cc:973): the diagnostic snapshot
fields. -/
structure MonitorInfo where
  owner : Option ThreadId
  entry_count : Nat
  waiters : List ThreadId
deriving DecidableEq, Repr

/-- The `MonitorInfo` constructor (monitor.cc:973).  Unlocked: default
fields (no owner, entry count zero, no waiters).  Thin: the owner looked
up by id (modelled as the id itself, threads being live), entry count
`1 + count`, no waiters.  Fat: the monitor owner, entry count
`1 + lock_count_`, and the wait set. -/
def MonitorInfo.ofObject (s : ObjState) : MonitorInfo :=
  match s.lockWord with
  | .Unlocked => ⟨none, 0, []⟩
  | .ThinLocked o n => ⟨some o, 1 + n, []⟩
  | .FatLocked _ => ⟨s.monitor.owner, 1 + s.monitor.lock_count, s.monitor.wait_set⟩

/-- Whether `self` currently holds the lock of the object: the thin
owner for a thin word, the monitor owner for a fat word. -/
def holdsLock (self : ThreadId) (s : ObjState) : Bool :=
  match s.lockWord with
  | .Unlocked => false
  | .ThinLocked o _ => o = self
  | .FatLocked _ => s.monitor.owner = some self

/-- `MonitorEnter` iterated `k` times. -/
def enterN (ctx : Ctx) (self : ThreadId) : Nat → ObjState → Option ObjState
  | 0, s => some s
  | k + 1, s => (MonitorEnter ctx self s).bind (enterN ctx self k)

/-- `log_contention` in `Monitor::Lock` (monitor.cc:192): profiling is
on when the threshold is nonzero. -/
def logContention (threshold : Nat) : Bool :=
  threshold ≠ 0

/-- The initializer of `wait_start_ms` in `Monitor::Lock`
(monitor.cc:193), verbatim: `log_contention ? 0 : MilliTime()`. -/
def waitStartMs (log_contention : Bool) (nowMs : Nat) : Nat :=
  if log_contention then 0 else nowMs

/-- The `wait_ms` computation after waking (monitor.cc:204):
current time minus the recorded start. -/
def contentionWaitMs (wakeMs startRecorded : Nat) : Nat :=
  wakeMs - startRecorded

/-- The sampling percentage (monitor.cc:206): 100 once `wait_ms` reaches
the threshold, else `100 * wait_ms / threshold` (integer division). -/
def samplePercent (threshold wait_ms : Nat) : Nat :=
  if wait_ms ≥ threshold then 100 else 100 * wait_ms / threshold

/-- An empty monitor record, used as the monitor field of states whose
lock word is not fat (the field is meaningful only once inflated). -/
def emptyMonitor : Monitor :=
  { owner := none, lock_count := 0, wait_set := [], locking_method := none, locking_dex_pc := 0 }

/-- A context with profiling off and no current method. -/
def plainCtx : Ctx :=
  { profilingThreshold := 0, curMethod := none, curDexPc := 0 }

/-- C1: for every thread `T` and object `O`, `exit(T, O)` returns false
and raises `IllegalMonitorState` when the lock word is `Unlocked` or
`ThinLocked` by another thread (leaving the state unchanged); when it is
`ThinLocked(T, n)` with `n > 0` it stores `ThinLocked(T, n - 1)` and
returns true; and when it is `ThinLocked(T, 0)` it stores `Unlocked` and
returns true. -/
theorem c1_monitor_exit_cases (self : ThreadId) (s : ObjState) :
    (s.lockWord = .Unlocked →
      MonitorExit self s = ⟨false, s, some .IllegalMonitorState⟩) ∧
    (∀ o n, s.lockWord = .ThinLocked o n → o ≠ self →
      MonitorExit self s = ⟨false, s, some .IllegalMonitorState⟩) ∧
    (∀ n, s.lockWord = .ThinLocked self n → 0 < n →
      MonitorExit self s = ⟨true, { s with lockWord := .ThinLocked self (n - 1) }, none⟩) ∧
    (s.lockWord = .ThinLocked self 0 →
      MonitorExit self s = ⟨true, { s with lockWord := .Unlocked }, none⟩) := by
  refine ⟨?_, ?_, ?_, ?_⟩
  · intro h
    simp [MonitorExit, h]
  · intro o n h hne
    simp [MonitorExit, h, hne]
  · intro n h hn
    simp [MonitorExit, h, Nat.pos_iff_ne_zero.mp hn]
  · intro h
    simp [MonitorExit, h]

theorem c1_monitor_exit_cases_witness :
    MonitorExit 7 ⟨.ThinLocked 7 3, emptyMonitor⟩ =
      ⟨true, ⟨.ThinLocked 7 2, emptyMonitor⟩, none⟩ ∧
    MonitorExit 5 ⟨.ThinLocked 7 3, emptyMonitor⟩ =
      ⟨false, ⟨.ThinLocked 7 3, emptyMonitor⟩, some .IllegalMonitorState⟩ ∧
    MonitorExit 7 ⟨.ThinLocked 7 0, emptyMonitor⟩ =
      ⟨true, ⟨.Unlocked, emptyMonitor⟩, none⟩ ∧
    MonitorExit 7 ⟨.Unlocked, emptyMonitor⟩ =
      ⟨false, ⟨.Unlocked, emptyMonitor⟩, some .IllegalMonitorState⟩ := by
  refine ⟨?_, ?_, ?_, ?_⟩
  · exact (c1_monitor_exit_cases 7 ⟨.ThinLocked 7 3, emptyMonitor⟩).2.2.1 3 rfl (by decide)
  · exact (c1_monitor_exit_cases 5 ⟨.ThinLocked 7 3, emptyMonitor⟩).2.1 7 3 rfl (by decide)
  · exact (c1_monitor_exit_cases 7 ⟨.ThinLocked 7 0, emptyMonitor⟩).2.2.2 rfl
  · exact (c1_monitor_exit_cases 7 ⟨.Unlocked, emptyMonitor⟩).1 rfl

/-- C3: for a caller that owns the fat monitor, a wait whose timeout is
out of range (`ms < 0`, `ns < 0`, or `ns > 999999`) raises
`IllegalArgument` and leaves the monitor (owner, recursion count, wait
set) unchanged; and a `TimedWait` with `ms = 0` and `ns = 0` is
performed as an untimed `Wait`. -/
theorem c3_wait_argument_check (self : ThreadId) (ms ns : Int) (why : WhyState) (m : Monitor)
    (hown : m.owner = some self) :
    ((ms < 0 ∨ ns < 0 ∨ ns > 999999) →
      Monitor.WaitMember self ms ns why m = ⟨m, some .IllegalArgument, none⟩) ∧
    (why = .TimedWaiting → ms = 0 → ns = 0 →
      (Monitor.WaitMember self ms ns why m).parked = some .Waiting ∧
      (Monitor.WaitMember self ms ns why m).thrown = none) := by
  constructor
  · intro hbad
    simp [Monitor.WaitMember, hown, hbad]
  · intro hwhy hms hns
    subst hwhy; subst hms; subst hns
    simp [Monitor.WaitMember, hown]

theorem c3_wait_argument_check_witness :
    Monitor.WaitMember 7 (-1) 0 .TimedWaiting { emptyMonitor with owner := some 7 } =
      ⟨{ emptyMonitor with owner := some 7 }, some .IllegalArgument, none⟩ ∧
    (Monitor.WaitMember 7 0 0 .TimedWaiting { emptyMonitor with owner := some 7 }).parked =
      some .Waiting := by
  constructor
  · exact (c3_wait_argument_check 7 (-1) 0 .TimedWaiting
      { emptyMonitor with owner := some 7 } rfl).1 (by norm_num)
  · exact ((c3_wait_argument_check 7 0 0 .TimedWaiting
      { emptyMonitor with owner := some 7 } rfl).2 rfl rfl rfl).1

/-- C4: a thread that does not hold the object lock gets
`IllegalMonitorState` from each of exit, wait, notify and notifyAll, and
the object state (lock word and every monitor field) is returned
bit-identical. -/
theorem c4_non_owner_frame (ctx : Ctx) (wm : ThreadId → Option MonitorId) (self : ThreadId)
    (ms ns : Int) (why : WhyState) (s : ObjState)
    (h : holdsLock self s = false) :
    MonitorExit self s = ⟨false, s, some .IllegalMonitorState⟩ ∧
    MonitorWaitObject ctx self ms ns why s = ⟨s, some .IllegalMonitorState, none⟩ ∧
    InflateAndNotify wm self false s = (s, some .IllegalMonitorState) ∧
    InflateAndNotify wm self true s = (s, some .IllegalMonitorState) := by
  obtain ⟨lw, m⟩ := s
  cases lw with
  | Unlocked =>
      exact ⟨rfl, rfl, rfl, rfl⟩
  | ThinLocked o n =>
      simp only [holdsLock, decide_eq_false_iff_not] at h
      refine ⟨?_, ?_, ?_, ?_⟩ <;>
        simp [MonitorExit, MonitorWaitObject, InflateAndNotify, h]
  | FatLocked mid =>
      simp only [holdsLock, decide_eq_false_iff_not] at h
      refine ⟨?_, ?_, ?_, ?_⟩ <;>
        simp [MonitorExit, MonitorWaitObject, InflateAndNotify, Monitor.Unlock,
              Monitor.WaitMember, Monitor.Notify, Monitor.NotifyAll, h]

theorem c4_non_owner_frame_witness :
    MonitorExit 5 ⟨.FatLocked 1, { emptyMonitor with owner := some 7 }⟩ =
      ⟨false, ⟨.FatLocked 1, { emptyMonitor with owner := some 7 }⟩,
       some .IllegalMonitorState⟩ ∧
    InflateAndNotify (fun _ => none) 5 true
        ⟨.FatLocked 1, { emptyMonitor with owner := some 7 }⟩ =
      (⟨.FatLocked 1, { emptyMonitor with owner := some 7 }⟩, some .IllegalMonitorState) := by
  have h := c4_non_owner_frame plainCtx (fun _ => none) 5 0 0 .Waiting
    ⟨.FatLocked 1, { emptyMonitor with owner := some 7 }⟩ (by decide)
  exact ⟨h.1, h.2.2.2⟩

/-- C9: when the lock word is thin and owned by the caller, notify and
notifyAll return successfully: no exception, no inflation, the object
state (lock word included) unchanged. -/
theorem c9_thin_notify_noop (wm : ThreadId → Option MonitorId) (self : ThreadId)
    (n : Nat) (b : Bool) (s : ObjState) (h : s.lockWord = .ThinLocked self n) :
    InflateAndNotify wm self b s = (s, none) := by
  simp [InflateAndNotify, h]

theorem c9_thin_notify_noop_witness :
    InflateAndNotify (fun _ => none) 7 true ⟨.ThinLocked 7 2, emptyMonitor⟩ =
      (⟨.ThinLocked 7 2, emptyMonitor⟩, none) ∧
    InflateAndNotify (fun _ => none) 7 false ⟨.ThinLocked 7 2, emptyMonitor⟩ =
      (⟨.ThinLocked 7 2, emptyMonitor⟩, none) :=
  ⟨c9_thin_notify_noop (fun _ => none) 7 2 true ⟨.ThinLocked 7 2, emptyMonitor⟩ rfl,
   c9_thin_notify_noop (fun _ => none) 7 2 false ⟨.ThinLocked 7 2, emptyMonitor⟩ rfl⟩

/-- C10: for an object whose lock word is fat but whose monitor has no
owner, `GetLockOwnerThreadId` returns the reserved invalid thread id,
which is the same value it returns for an unlocked object. -/
theorem c10_fat_unowned_owner_id (s s2 : ObjState) (mid : MonitorId)
    (h1 : s.lockWord = .FatLocked mid) (h2 : s.monitor.owner = none)
    (h3 : s2.lockWord = .Unlocked) :
    GetLockOwnerThreadId s = kInvalidThreadId ∧
    GetLockOwnerThreadId s2 = kInvalidThreadId ∧
    GetLockOwnerThreadId s = GetLockOwnerThreadId s2 := by
  refine ⟨?_, ?_, ?_⟩ <;>
    simp [GetLockOwnerThreadId, Monitor.GetOwnerThreadId, h1, h2, h3]

/-- C2: when the caller already owns the thin lock with recursion count
`n`: if `n` is strictly below `kThinLockMaxCount`, enter stores
`ThinLocked(self, n + 1)`; if `n` equals the maximum, enter inflates
with self as owner and the resulting monitor has owner self and
recursion count `kThinLockMaxCount + 1` (the thin count is copied in by
`Install` and the retried fat-path lock increments it once). -/
theorem c2_enter_recursion_overflow (ctx : Ctx) (self : ThreadId) (s : ObjState) (n : Nat)
    (h : s.lockWord = .ThinLocked self n) :
    (n < kThinLockMaxCount →
      MonitorEnter ctx self s = some { s with lockWord := .ThinLocked self (n + 1) }) ∧
    (n = kThinLockMaxCount →
      ∃ s', MonitorEnter ctx self s = some s' ∧
        s'.lockWord = .FatLocked kInflatedMonitorId ∧
        s'.monitor.owner = some self ∧
        s'.monitor.lock_count = kThinLockMaxCount + 1) := by
  constructor
  · intro hlt
    simp [MonitorEnter, h, Nat.succ_le_of_lt hlt]
  · intro heq
    subst heq
    refine ⟨{ lockWord := .FatLocked kInflatedMonitorId,
              monitor :=
                { owner := some self,
                  lock_count := kThinLockMaxCount + 1,
                  wait_set := [],
                  locking_method :=
                    if ctx.profilingThreshold ≠ 0 then ctx.curMethod else none,
                  locking_dex_pc :=
                    if ctx.profilingThreshold ≠ 0 then ctx.curDexPc else 0 } },
            ?_, rfl, rfl, rfl⟩
    simp [MonitorEnter, h, Inflate, Monitor.LockStep, Nat.not_succ_le_self]

theorem c2_enter_recursion_overflow_witness :
    MonitorEnter plainCtx 7 ⟨.ThinLocked 7 0, emptyMonitor⟩ =
      some ⟨.ThinLocked 7 1, emptyMonitor⟩ ∧
    (∃ s', MonitorEnter plainCtx 7 ⟨.ThinLocked 7 kThinLockMaxCount, emptyMonitor⟩ = some s' ∧
      s'.lockWord = .FatLocked kInflatedMonitorId ∧
      s'.monitor.owner = some 7 ∧
      s'.monitor.lock_count = kThinLockMaxCount + 1) := by
  constructor
  · exact (c2_enter_recursion_overflow plainCtx 7 ⟨.ThinLocked 7 0, emptyMonitor⟩ 0 rfl).1
      (by decide)
  · exact (c2_enter_recursion_overflow plainCtx 7
      ⟨.ThinLocked 7 kThinLockMaxCount, emptyMonitor⟩ kThinLockMaxCount rfl).2 rfl

/-- The loop of `Monitor::Notify` pops skipped threads off the head and
stops at the first thread whose `wait_monitor_` is set; equivalently it
drops the prefix of threads with a null `wait_monitor_`, signals the
head of what remains and keeps its tail. -/
theorem notifyLoop_characterization (wm : ThreadId → Option MonitorId) (thisId : MonitorId)
    (l : List ThreadId) (hinv : ∀ t ∈ l, wm t = none ∨ wm t = some thisId) :
    (notifyLoop wm l).2 = l.find? (fun t => decide (wm t = some thisId)) ∧
    (notifyLoop wm l).1 = (l.dropWhile (fun t => ! decide (wm t = some thisId))).tail := by
  induction l with
  | nil => exact ⟨rfl, rfl⟩
  | cons t rest ih =>
      rcases hinv t (by simp) with hw | hw
      · have hrest := ih (fun u hu => hinv u (by simp [hu]))
        simp [notifyLoop, hw, List.find?, List.dropWhile, hrest.1, hrest.2]
      · simp [notifyLoop, hw, List.find?, List.dropWhile]

/-- C5: for an owning caller, notify scans the wait set from the head in
FIFO order, removing every visited candidate; it signals the first
candidate whose `wait_monitor` still points at this monitor and stops,
skipping candidates whose `wait_monitor` no longer does; if the set
empties without a signal, notify returns silently (no exception, no
signal, empty set); owner and recursion count are never touched. -/
theorem c5_notify_first_valid_waiter (wm : ThreadId → Option MonitorId) (self : ThreadId)
    (thisId : MonitorId) (m : Monitor) (hown : m.owner = some self)
    (hinv : ∀ t ∈ m.wait_set, wm t = none ∨ wm t = some thisId) :
    (Monitor.Notify wm self m).thrown = none ∧
    (Monitor.Notify wm self m).signalled
      = m.wait_set.find? (fun t => decide (wm t = some thisId)) ∧
    (Monitor.Notify wm self m).mon.wait_set
      = (m.wait_set.dropWhile (fun t => ! decide (wm t = some thisId))).tail ∧
    (Monitor.Notify wm self m).mon.owner = m.owner ∧
    (Monitor.Notify wm self m).mon.lock_count = m.lock_count ∧
    ((∀ t ∈ m.wait_set, wm t = none) →
      (Monitor.Notify wm self m).signalled = none ∧
      (Monitor.Notify wm self m).mon.wait_set = []) := by
  have hchar := notifyLoop_characterization wm thisId m.wait_set hinv
  refine ⟨?_, ?_, ?_, ?_, ?_, ?_⟩
  · simp [Monitor.Notify, hown]
  · simp [Monitor.Notify, hown, hchar.1]
  · simp [Monitor.Notify, hown, hchar.2]
  · simp [Monitor.Notify, hown]
  · simp [Monitor.Notify, hown]
  · intro hall
    constructor
    · simp only [Monitor.Notify, hown, if_pos]
      simp only [hchar.1]
      rw [List.find?_eq_none]
      intro t ht
      simp [hall t ht]
    · simp only [Monitor.Notify, hown, if_pos]
      simp only [hchar.2]
      have : m.wait_set.dropWhile (fun t => ! decide (wm t = some thisId)) = [] := by
        rw [List.dropWhile_eq_nil_iff]
        intro t ht
        simp [hall t ht]
      simp [this]

theorem c5_notify_first_valid_waiter_witness :
    (Monitor.Notify (fun t => if t = 21 then some 1 else none) 7
      { emptyMonitor with owner := some 7, wait_set := [20, 21, 22] }).signalled = some 21 ∧
    (Monitor.Notify (fun t => if t = 21 then some 1 else none) 7
      { emptyMonitor with owner := some 7, wait_set := [20, 21, 22] }).mon.wait_set = [22] ∧
    (Monitor.Notify (fun t => if t = 21 then some 1 else none) 7
      { emptyMonitor with owner := some 7, wait_set := [20, 21, 22] }).thrown = none := by
  have h := c5_notify_first_valid_waiter (fun t => if t = 21 then some 1 else none) 7 1
    { emptyMonitor with owner := some 7, wait_set := [20, 21, 22] } rfl (by decide)
  refine ⟨?_, ?_, h.1⟩
  · rw [h.2.1]; decide
  · rw [h.2.2.1]; decide

/-- An object whose lock word is fat while the monitor is fully
released: the monitor has no owner and count zero. -/
def fatUnownedState : ObjState :=
  ⟨.FatLocked 1, emptyMonitor⟩

/-- C6 counterexample: on a fat lock word whose monitor has no owner the
snapshot reports no owner yet an entry count of 1, not the 0 the claim
requires for an unheld lock. -/
theorem c6_counterexample_fat_unowned :
    fatUnownedState.lockWord = .FatLocked 1 ∧
    fatUnownedState.monitor.owner = none ∧
    fatUnownedState.monitor.lock_count = 0 ∧
    (MonitorInfo.ofObject fatUnownedState).owner = none ∧
    (MonitorInfo.ofObject fatUnownedState).entry_count = 1 ∧
    (MonitorInfo.ofObject fatUnownedState).entry_count ≠ 0 := by decide

/-- C6 (amended): the snapshot reports entry count `1 + count` for a
thin lock word and `1 + lock_count_` for a fat one — even when the fat
monitor has no owner, where it reports owner none but entry count
`1 + lock_count_` (so 1 for a fully released monitor) — and 0 only for
an unlocked lock word. -/
theorem c6_snapshot_entry_count (s : ObjState) :
    (s.lockWord = .Unlocked → MonitorInfo.ofObject s = ⟨none, 0, []⟩) ∧
    (∀ o n, s.lockWord = .ThinLocked o n →
      MonitorInfo.ofObject s = ⟨some o, 1 + n, []⟩) ∧
    (∀ mid, s.lockWord = .FatLocked mid →
      MonitorInfo.ofObject s
        = ⟨s.monitor.owner, 1 + s.monitor.lock_count, s.monitor.wait_set⟩) := by
  refine ⟨?_, ?_, ?_⟩
  · intro h; simp [MonitorInfo.ofObject, h]
  · intro o n h; simp [MonitorInfo.ofObject, h]
  · intro mid h; simp [MonitorInfo.ofObject, h]

/-- A fat monitor held four levels deep by thread 7 with one waiter. -/
def heldMonitorExample : Monitor :=
  { owner := some 7, lock_count := 4, wait_set := [9], locking_method := none, locking_dex_pc := 0 }

theorem c6_snapshot_entry_count_witness :
    MonitorInfo.ofObject ⟨.Unlocked, emptyMonitor⟩ = ⟨none, 0, []⟩ ∧
    MonitorInfo.ofObject ⟨.ThinLocked 7 2, emptyMonitor⟩ = ⟨some 7, 3, []⟩ ∧
    MonitorInfo.ofObject ⟨.FatLocked 1, heldMonitorExample⟩ = ⟨some 7, 5, [9]⟩ := by
  refine ⟨?_, ?_, ?_⟩
  · exact (c6_snapshot_entry_count ⟨.Unlocked, emptyMonitor⟩).1 rfl
  · exact (c6_snapshot_entry_count ⟨.ThinLocked 7 2, emptyMonitor⟩).2.1 7 2 rfl
  · exact (c6_snapshot_entry_count ⟨.FatLocked 1, heldMonitorExample⟩).2.2 1 rfl

/-- C7 (code bug, monitor.cc:193): with profiling enabled the ternary
initializing `wait_start_ms` is inverted — it records 0 rather than the
current time — so the computed `wait_ms` is the absolute clock value
instead of the elapsed waiting time, and the sampling percentage is
computed from that wrong value.  Concretely with threshold 1000 ms,
blocking at clock 5000 and waking at 5003 (3 ms elapsed): the code
computes `wait_ms = 5003` and samples at 100 percent, while the elapsed
time 3 ms would sample at 0 percent. -/
theorem c7_wait_start_ms_inverted :
    logContention 1000 = true ∧
    waitStartMs (logContention 1000) 5000 = 0 ∧
    contentionWaitMs 5003 (waitStartMs (logContention 1000) 5000) = 5003 ∧
    contentionWaitMs 5003 5000 = 3 ∧
    contentionWaitMs 5003 (waitStartMs (logContention 1000) 5000) ≠
      contentionWaitMs 5003 5000 ∧
    samplePercent 1000 (contentionWaitMs 5003 (waitStartMs (logContention 1000) 5000)) = 100 ∧
    samplePercent 1000 (contentionWaitMs 5003 5000) = 0 := by decide

/-- Repeated thin re-entry: from `ThinLocked(self, n)`, `j` further
enters stay on the store path and reach `ThinLocked(self, n + j)` as
long as the count stays within the cap. -/
theorem enterN_thin (ctx : Ctx) (self : ThreadId) :
    ∀ (j n : Nat), n + j ≤ kThinLockMaxCount →
      ∀ s : ObjState, s.lockWord = .ThinLocked self n →
        enterN ctx self j s = some { s with lockWord := .ThinLocked self (n + j) } := by
  intro j
  induction j with
  | zero =>
      intro n _ s hs
      obtain ⟨lw, m⟩ := s
      simp only at hs
      simp [enterN, hs]
  | succ j ih =>
      intro n h s hs
      have h1 : n + 1 ≤ kThinLockMaxCount := by omega
      have hstep : MonitorEnter ctx self s = some { s with lockWord := .ThinLocked self (n + 1) } := by
        simp [MonitorEnter, hs, h1]
      have hrest := ih (n + 1) (by omega) { s with lockWord := .ThinLocked self (n + 1) } rfl
      calc enterN ctx self (j + 1) s
          = (MonitorEnter ctx self s).bind (enterN ctx self j) := rfl
        _ = enterN ctx self j { s with lockWord := .ThinLocked self (n + 1) } := by
              rw [hstep]; rfl
        _ = some { s with lockWord := .ThinLocked self (n + (j + 1)) } := by
              rw [hrest]
              have : n + 1 + j = n + (j + 1) := by omega
              rw [this]

/-- C8: on a fresh (unlocked) object, `k` enters by the same thread with
`k - 1` within the thin-lock cap leave a thin lock whose snapshot
reports owner self, entry count `k` and no waiters. -/
theorem c8_enter_snapshot_roundtrip (ctx : Ctx) (self : ThreadId) (m0 : Monitor) (k : Nat)
    (hk : 1 ≤ k) (hmax : k - 1 ≤ kThinLockMaxCount) :
    ∃ s', enterN ctx self k ⟨.Unlocked, m0⟩ = some s' ∧
      MonitorInfo.ofObject s' = ⟨some self, k, []⟩ := by
  obtain ⟨j, rfl⟩ : ∃ j, k = j + 1 := ⟨k - 1, by omega⟩
  refine ⟨⟨.ThinLocked self j, m0⟩, ?_, ?_⟩
  · have hrest := enterN_thin ctx self j 0 (by omega) ⟨.ThinLocked self 0, m0⟩ rfl
    calc enterN ctx self (j + 1) ⟨.Unlocked, m0⟩
        = (MonitorEnter ctx self ⟨.Unlocked, m0⟩).bind (enterN ctx self j) := rfl
      _ = enterN ctx self j ⟨.ThinLocked self 0, m0⟩ := rfl
      _ = some ⟨.ThinLocked self j, m0⟩ := by rw [hrest]; simp
  · simp [MonitorInfo.ofObject, Nat.add_comm]

theorem c8_enter_snapshot_roundtrip_witness :
    ∃ s', enterN plainCtx 7 3 ⟨.Unlocked, emptyMonitor⟩ = some s' ∧
      MonitorInfo.ofObject s' = ⟨some 7, 3, []⟩ :=
  c8_enter_snapshot_roundtrip plainCtx 7 emptyMonitor 3 (by decide) (by decide)

theorem c10_fat_unowned_owner_id_witness :
    GetLockOwnerThreadId ⟨.FatLocked 1, emptyMonitor⟩ = kInvalidThreadId ∧
    GetLockOwnerThreadId ⟨.Unlocked, emptyMonitor⟩ = kInvalidThreadId ∧
    GetLockOwnerThreadId ⟨.FatLocked 1, emptyMonitor⟩ =
      GetLockOwnerThreadId ⟨.Unlocked, emptyMonitor⟩ :=
  c10_fat_unowned_owner_id ⟨.FatLocked 1, emptyMonitor⟩ ⟨.Unlocked, emptyMonitor⟩ 1
    rfl rfl rfl

end Art
